import Mathlib

/-!
Verification development for the SRA API client (src/index.js).

The client is a thin HTTP wrapper plus a task-polling state machine
(`taskWait`).  We embed the response-handling and request-building logic
shallowly: JavaScript objects observed by the code become Lean structures,
the `.end` handlers become pure functions from the `(err, res)` pair to an
explicit outcome value, and the poll loop becomes a step function on a
small state record driven by a list of server responses.
-/

namespace SraApi

/-- The `progress` sub-object of a task body: `{current, max}`. -/
structure Progress where
  current : Nat
  max : Nat
deriving DecidableEq, Repr

/-- The parsed response body as read by the client: optional `_id`,
optional `status`, optional `progress` object.  `none` models a field that
is absent (JavaScript `undefined`). -/
structure Body where
  _id : Option String
  status : Option String
  progress : Option Progress
deriving DecidableEq, Repr

/-- The superagent response as read by the client: the HTTP status code
(`res.statusCode`, also readable as `res.status`) and the parsed body. -/
structure Resp where
  statusCode : Nat
  body : Body
deriving DecidableEq, Repr

/-- `res.status` in superagent is the same HTTP status code as
`res.statusCode`; the source reads it under both names. -/
def Resp.status (r : Resp) : Nat := r.statusCode

/-- JavaScript truthiness of an optional string field: an absent field
(`undefined`) and the empty string are falsy; any other string is truthy. -/
def truthy (o : Option String) : Bool :=
  match o with
  | some s => s ≠ ""
  | none => false

/-- Outcome of `_handleResponse(err, res, callback)`:
either the callback guard drops everything (`callback` not a function), or
the callback is invoked with the transport error, the server-error string
`'Status code: ' + statusCode`, or `(null, res.body)`. -/
inductive HResult where
  | dropped
  | errored (e : String)
  | serverError (msg : String)
  | success (body : Body)
deriving DecidableEq, Repr

/-- Embedding of `_handleResponse` (src/index.js lines 30-35).
`cb` records whether a function callback was supplied. -/
def _handleResponse (err : Option String) (res : Resp) (cb : Bool) : HResult :=
  if !cb then .dropped
  else
    match err with
    | some e => .errored e
    | none =>
      if res.statusCode ≠ 200 then
        .serverError ("Status code: " ++ toString res.statusCode)
      else
        .success res.body

/-- An IEEE-754 binary64 value as JavaScript numbers have: a finite value
`m * 2 ^ t` in the canonical encoding (`|m| ∈ [2^52, 2^53)` with
`t ≥ -1074` for normals, `|m| < 2^52` with `t = -1074` for subnormals,
`(0, 0)` for zero — every representable value has exactly one such form,
and the operations below only ever build this form), an infinity, or
NaN. -/
inductive F64 where
  | finite (m : ℤ) (t : ℤ)
  | inf (neg : Bool)
  | nan
deriving DecidableEq, Repr

/-- `⌊log₂ n⌋` by structural recursion on a fuel bound (`Nat.log2` itself
is defined by well-founded recursion and does not reduce in the kernel). -/
def log2Fuel : Nat → Nat → Nat
  | 0, _ => 0
  | fuel + 1, n => if 2 ≤ n then log2Fuel fuel (n / 2) + 1 else 0

/-- `⌊log₂ n⌋` for `n ≥ 1`. -/
def natLog2 (n : Nat) : Nat := log2Fuel n n

/-- Whether `2 ^ k ≤ n / d` for positive naturals `n`, `d`. -/
def pow2le (k : ℤ) (n d : Nat) : Bool :=
  if 0 ≤ k then d * 2 ^ k.toNat ≤ n else d ≤ n * 2 ^ (-k).toNat

/-- `⌊log₂ (n / d)⌋` for positive naturals `n`, `d`: the estimate
`⌊log₂ n⌋ - ⌊log₂ d⌋` is exact or one too high, so one test settles it. -/
def floorLog2Frac (n d : Nat) : ℤ :=
  let g : ℤ := (natLog2 n : ℤ) - (natLog2 d : ℤ)
  if pow2le g n d then g else g - 1

/-- Round `a / b` (naturals, `b > 0`) to the nearest natural, ties to
even. -/
def rneNat (a b : Nat) : Nat :=
  let f := a / b
  let r := a % b
  if 2 * r < b then f
  else if b < 2 * r then f + 1
  else if f % 2 = 0 then f else f + 1

/-- Whether the value `m * 2 ^ t` (mantissa `m ≥ 0`) reaches the binary64
overflow threshold `2 ^ 1024`; with `m ≤ 2 ^ 53` this needs `t ≥ 0`. -/
def overflow64 (m : Nat) (t : ℤ) : Bool :=
  if 0 ≤ t then 2 ^ 1024 ≤ m * 2 ^ t.toNat else false

/-- Round the value `± (n / d) * 2 ^ s` to binary64 (round to nearest,
ties to even): place the unit in the last place at `2 ^ (e - 52)` for a
normal result, clamped at `2 ^ (-1074)` for subnormals; round the scaled
magnitude to an integer mantissa; renormalize a mantissa carry; overflow
past `2 ^ 1024` gives an infinity. -/
def roundFrac (neg : Bool) (n d : Nat) (s : ℤ) : F64 :=
  if n = 0 then .finite 0 0
  else
    let e := floorLog2Frac n d + s
    let t : ℤ := max (e - 52) (-1074)
    let k := s - t
    let m0 := rneNat (n * 2 ^ k.toNat) (d * 2 ^ (-k).toNat)
    let m := if m0 = 2 ^ 53 then 2 ^ 52 else m0
    let t2 := if m0 = 2 ^ 53 then t + 1 else t
    if m = 0 then .finite 0 0
    else if overflow64 m t2 then .inf neg
    else .finite (if neg then -(m : ℤ) else (m : ℤ)) t2

/-- A JavaScript number holding an integer value. -/
def intToF64 (c : ℤ) : F64 := roundFrac (decide (c < 0)) c.natAbs 1 0

/-- A JavaScript number holding a (JSON) natural. -/
def natToF64 (n : Nat) : F64 := intToF64 (n : ℤ)

/-- IEEE-754 binary64 division as JavaScript's `/`: division by zero gives
an infinity (NaN for 0/0), otherwise the exact quotient is rounded. -/
def fdiv (x y : F64) : F64 :=
  match x, y with
  | .nan, _ => .nan
  | _, .nan => .nan
  | .inf _, .inf _ => .nan
  | .inf s, .finite m _ => .inf (s != decide (m < 0))
  | .finite _ _, .inf _ => .finite 0 0
  | .finite m1 t1, .finite m2 t2 =>
    if m2 = 0 then
      if m1 = 0 then .nan else .inf (decide (m1 < 0))
    else
      roundFrac (decide (m1 < 0) != decide (m2 < 0)) m1.natAbs m2.natAbs
        (t1 - t2)

/-- IEEE-754 binary64 multiplication as JavaScript's `*`: the exact
product of the operands is rounded; infinity times zero is NaN. -/
def fmul (x y : F64) : F64 :=
  match x, y with
  | .nan, _ => .nan
  | _, .nan => .nan
  | .inf s, .inf t => .inf (s != t)
  | .inf s, .finite m _ => if m = 0 then .nan else .inf (s != decide (m < 0))
  | .finite m _, .inf t => if m = 0 then .nan else .inf (decide (m < 0) != t)
  | .finite m1 t1, .finite m2 t2 =>
    roundFrac (decide (m1 < 0) != decide (m2 < 0))
      (m1.natAbs * m2.natAbs) 1 (t1 + t2)

/-- `Math.ceil`: the exact ceiling of a finite double — an integer of
magnitude at most `2 ^ 53`, hence exactly representable — fixing
infinities and NaN.  For `b > 0`, `⌈a / b⌉ = -(⌊-a / b⌋)`, with `⌊·⌋` the
Euclidean division `Int.ediv`. -/
def fceil (x : F64) : F64 :=
  match x with
  | .finite m t =>
    if 0 ≤ t then .finite m t
    else intToF64 (-(Int.ediv (-m) (2 ^ (-t).toNat)))
  | .inf s => .inf s
  | .nan => .nan

/-- `Math.ceil(current / max * 100)` as JavaScript evaluates it in the
`processing` branch (src/index.js line 121): in IEEE-754 binary64, the
quotient and the product each rounding to the nearest double.  The result
can therefore exceed the exact rational ceiling — `{7, 100}` gives 8, not
7 — and `max = 0` gives Infinity (NaN for 0/0). -/
def percentOf (p : Progress) : F64 :=
  fceil (fmul (fdiv (natToF64 p.current) (natToF64 p.max)) (natToF64 100))

/-- The value handed to `callbackProgress`: `res.body` with
`progress.percent` glued on. -/
structure ProgressEvt where
  body : Body
  percent : F64
deriving DecidableEq, Repr

/-- What one execution of the `.end` handler inside `taskWait.checkTask`
(src/index.js lines 105-133) does:
* `callbackErr e` — the handler called `callback(e)` and returned (terminal);
* `completedResp h` — the `completed` branch delegated to `_handleResponse`;
* `scheduleNext d evt` — the handler called `setTimeout(checkTask, d)`,
  after firing the progress callback with `evt` when `evt` is `some`;
* `throwTypeError` — the handler evaluated a member access on `undefined`
  (calling an absent `callback`, or reading `progress.current` of a body
  with no `progress`), raising a TypeError. -/
inductive TickOut where
  | callbackErr (e : String)
  | completedResp (h : HResult)
  | scheduleNext (delayMs : Nat) (evt : Option ProgressEvt)
  | throwTypeError
deriving DecidableEq, Repr

/-- A direct `callback(e)` call in `taskWait`: unlike `_handleResponse`,
there is no function guard, so an absent callback raises a TypeError. -/
def callCb (cb : Bool) (e : String) : TickOut :=
  if cb then .callbackErr e else .throwTypeError

/-- Embedding of the `.end` handler of one poll tick in `taskWait`
(src/index.js lines 105-133).  `cb` / `cbP` record whether `callback` /
`callbackProgress` were supplied as functions; `pollFreq` is
`self.config.pollFreq`; `err`/`res` are the superagent results. -/
def tick (cb cbP : Bool) (pollFreq : Nat) (err : Option String) (res : Resp) :
    TickOut :=
  match err with
  | some e => callCb cb e
  | none =>
    if truthy res.body._id && truthy res.body.status then
      match res.body.status.getD "" with
      | "completed" => .completedResp (_handleResponse none res cb)
      | "pending" => .scheduleNext pollFreq none
      | "error" => callCb cb "Task error"
      | "processing" =>
        if cbP then
          match res.body.progress with
          | none => .throwTypeError
          | some p => .scheduleNext pollFreq (some ⟨res.body, percentOf p⟩)
        else .scheduleNext pollFreq none
      | _ => callCb cb ("Unknown server task status: " ++ toString res.status)
    else callCb cb "Empty response"

/-- Observable state of one `taskWait` invocation's poll loop:
`pendingTimers` counts scheduled future executions of `checkTask` (the
initial synchronous call plus any `setTimeout`), `requests` counts GETs
issued, `completions` counts invocations of the completion `callback`,
`terminated` is set once a handler run ends without rescheduling. -/
structure PollState where
  pendingTimers : Nat
  requests : Nat
  completions : Nat
  terminated : Bool
deriving DecidableEq, Repr

/-- State when `taskWait` returns: the synchronous `checkTask()` call on
line 135 is one scheduled check, nothing has been requested yet. -/
def initPoll : PollState := ⟨1, 0, 0, false⟩

/-- A server response to one poll, as seen by the `.end` handler. -/
def Response := Option String × Resp

/-- One scheduled `checkTask` execution: it fires only if the loop did not
already terminate and a check is actually scheduled; it issues exactly one
GET and then the handler runs on the response `r`. -/
def stepPoll (cb cbP : Bool) (pollFreq : Nat) (s : PollState) (r : Response) :
    PollState :=
  if s.terminated || s.pendingTimers == 0 then s
  else
    let s1 : PollState :=
      { s with pendingTimers := s.pendingTimers - 1, requests := s.requests + 1 }
    match tick cb cbP pollFreq r.1 r.2 with
    | .scheduleNext _ _ => { s1 with pendingTimers := s1.pendingTimers + 1 }
    | .callbackErr _ =>
      { s1 with terminated := true, completions := s1.completions + 1 }
    | .completedResp h =>
      match h with
      | .dropped => { s1 with terminated := true }
      | _ => { s1 with terminated := true, completions := s1.completions + 1 }
    | .throwTypeError => { s1 with terminated := true }

/-- The poll loop driven by a finite list of server responses. -/
def runPoll (cb cbP : Bool) (pollFreq : Nat) (rs : List Response) : PollState :=
  rs.foldl (stepPoll cb cbP pollFreq) initPoll

/-- The tick outcomes the spec lists as terminal states of the poller:
transport error, empty response, task error, unknown status (all reported
via `callback(...)`) and `completed` (reported via `_handleResponse`). -/
def isTerminalTick (t : TickOut) : Bool :=
  match t with
  | .callbackErr _ => true
  | .completedResp _ => true
  | .scheduleNext _ _ => false
  | .throwTypeError => false

/-- Loop invariant of one `taskWait` invocation: while the loop is live
exactly one check is scheduled and the completion callback has not fired;
once terminated nothing is scheduled; the callback never fires twice. -/
def PollInv (s : PollState) : Prop :=
  (s.terminated = true → s.pendingTimers = 0)
  ∧ (s.terminated = false → s.pendingTimers = 1 ∧ s.completions = 0)
  ∧ s.completions ≤ 1

theorem initPoll_inv : PollInv initPoll := by
  refine ⟨?_, ?_, ?_⟩ <;> decide

theorem stepPoll_inv (cb cbP : Bool) (pf : Nat) (s : PollState) (r : Response)
    (h : PollInv s) : PollInv (stepPoll cb cbP pf s r) := by
  obtain ⟨h1, h2, h3⟩ := h
  unfold stepPoll
  split
  · exact ⟨h1, h2, h3⟩
  · rename_i hcond
    simp only [Bool.or_eq_true, beq_iff_eq, not_or] at hcond
    have hterm : s.terminated = false := by
      cases hst : s.terminated
      · rfl
      · exact absurd hst hcond.1
    obtain ⟨hpt, hc0⟩ := h2 hterm
    rw [hterm, hpt, hc0]
    split
    all_goals try split
    all_goals simp [PollInv]

theorem foldlPoll_inv (cb cbP : Bool) (pf : Nat) :
    ∀ (rs : List Response) (s : PollState), PollInv s →
      PollInv (rs.foldl (stepPoll cb cbP pf) s)
  | [], _, h => h
  | r :: rs, s, h =>
    foldlPoll_inv cb cbP pf rs (stepPoll cb cbP pf s r)
      (stepPoll_inv cb cbP pf s r h)

theorem runPoll_inv (cb cbP : Bool) (pf : Nat) (rs : List Response) :
    PollInv (runPoll cb cbP pf rs) :=
  foldlPoll_inv cb cbP pf rs initPoll initPoll_inv

theorem stepPoll_terminated (cb cbP : Bool) (pf : Nat) (s : PollState)
    (r : Response) (h : s.terminated = true) : stepPoll cb cbP pf s r = s := by
  unfold stepPoll
  simp [h]

theorem foldlPoll_terminated (cb cbP : Bool) (pf : Nat) :
    ∀ (rs : List Response) (s : PollState), s.terminated = true →
      rs.foldl (stepPoll cb cbP pf) s = s
  | [], _, _ => rfl
  | r :: rs, s, h => by
    rw [List.foldl_cons, stepPoll_terminated cb cbP pf s r h,
      foldlPoll_terminated cb cbP pf rs s h]

theorem stepPoll_requests (cb cbP : Bool) (pf : Nat) (s : PollState)
    (r : Response) (h : s.terminated = false) (hp : s.pendingTimers = 1) :
    (stepPoll cb cbP pf s r).requests = s.requests + 1 := by
  unfold stepPoll
  rw [h, hp]
  simp only [Bool.false_or]
  norm_num
  split <;> first | rfl | (split <;> rfl)

theorem handleResponse_true_ne_dropped (err : Option String) (res : Resp) :
    _handleResponse err res true ≠ HResult.dropped := by
  unfold _handleResponse
  split
  · simp_all
  · split
    · simp
    · split <;> simp

theorem tick_completed_not_dropped (cbP : Bool) (pf : Nat) (err : Option String)
    (res : Resp) (h : HResult) (he : tick true cbP pf err res = .completedResp h) :
    h ≠ HResult.dropped := by
  unfold tick at he
  split at he
  · simp [callCb] at he
  · split at he
    · split at he
      · rw [TickOut.completedResp.injEq] at he
        rw [← he]
        exact handleResponse_true_ne_dropped none res
      · simp at he
      · simp [callCb] at he
      · split at he
        · split at he <;> simp at he
        · simp at he
      · simp [callCb] at he
    · simp [callCb] at he

theorem stepPoll_completes (cbP : Bool) (pf : Nat) (s : PollState) (r : Response)
    (h : s.terminated = false) (hp : s.pendingTimers = 1)
    (ht : isTerminalTick (tick true cbP pf r.1 r.2) = true) :
    (stepPoll true cbP pf s r).completions = s.completions + 1
      ∧ (stepPoll true cbP pf s r).terminated = true := by
  unfold stepPoll
  rw [h, hp]
  simp only [Bool.false_or]
  norm_num
  split
  · rename_i heq
    rw [heq] at ht
    simp [isTerminalTick] at ht
  · exact ⟨rfl, rfl⟩
  · rename_i hres heq
    split
    · exact absurd rfl (tick_completed_not_dropped cbP pf r.1 r.2 HResult.dropped heq)
    · exact ⟨rfl, rfl⟩
  · rename_i heq
    rw [heq] at ht
    simp [isTerminalTick] at ht

/-- C1: for every `taskWait` invocation (completion callback supplied), the
poll loop keeps at most one outstanding scheduled check; while the loop is
live each further tick performs exactly one network request; once a tick
reaches one of the terminal outcomes (transport error, empty response,
task error, unknown status, or `completed`) the loop stops — no request or
state change happens on any later response — and the completion callback
has then been invoked exactly once over the whole invocation. -/
theorem taskWait_poll_discipline (cbP : Bool) (pf : Nat)
    (rs rest : List Response) (r : Response) :
    (runPoll true cbP pf rs).pendingTimers ≤ 1
    ∧ (runPoll true cbP pf rs).completions ≤ 1
    ∧ ((runPoll true cbP pf rs).terminated = false →
        (runPoll true cbP pf (rs ++ [r])).requests
          = (runPoll true cbP pf rs).requests + 1)
    ∧ ((runPoll true cbP pf rs).terminated = true →
        runPoll true cbP pf (rs ++ rest) = runPoll true cbP pf rs)
    ∧ ((runPoll true cbP pf rs).terminated = false →
        isTerminalTick (tick true cbP pf r.1 r.2) = true →
        (runPoll true cbP pf (rs ++ [r])).completions = 1
          ∧ (runPoll true cbP pf (rs ++ [r])).terminated = true) := by
  obtain ⟨i1, i2, i3⟩ := runPoll_inv true cbP pf rs
  have happ : runPoll true cbP pf (rs ++ [r])
      = stepPoll true cbP pf (runPoll true cbP pf rs) r := by
    unfold runPoll
    rw [List.foldl_append]
    rfl
  refine ⟨?_, i3, ?_, ?_, ?_⟩
  · cases hst : (runPoll true cbP pf rs).terminated
    · exact le_of_eq (i2 hst).1
    · simp [i1 hst]
  · intro hterm
    rw [happ]
    exact stepPoll_requests true cbP pf _ r hterm (i2 hterm).1
  · intro hterm
    unfold runPoll
    rw [List.foldl_append]
    exact foldlPoll_terminated true cbP pf rest _ hterm
  · intro hterm htick
    have hc := stepPoll_completes cbP pf (runPoll true cbP pf rs) r hterm
      (i2 hterm).1 htick
    rw [happ]
    exact ⟨by rw [hc.1, (i2 hterm).2], hc.2⟩

/-- Witness for C1: a concrete run — one `pending` poll then an `error`
poll — reaches the terminal state with the completion callback invoked
exactly once. -/
theorem taskWait_poll_discipline_witness :
    (runPoll true false 1000
        [((none : Option String), (⟨200, ⟨some "t1", some "pending", none⟩⟩ : Resp)),
         ((none : Option String), (⟨200, ⟨some "t1", some "error", none⟩⟩ : Resp))]).completions
      = 1 := by
  have h := taskWait_poll_discipline false 1000
    [((none : Option String), (⟨200, ⟨some "t1", some "pending", none⟩⟩ : Resp))] []
    (((none : Option String), (⟨200, ⟨some "t1", some "error", none⟩⟩ : Resp)))
  exact (h.2.2.2.2 (by decide) (by decide)).1

/-- The request built by `taskQueue` (src/index.js lines 83-89): a POST
with body `{settings: settings || {}}`. -/
structure TaskQueueReq where
  method : String
  path : String
  settings : List (String × String)
deriving DecidableEq, Repr

/-- Embedding of `taskQueue` (src/index.js lines 83-89); `url` is
`this.config.url`, an absent `settings` argument is `none` (JavaScript
`undefined`, falsy, so `settings || {}` yields the empty object). -/
def taskQueue (url library task : String)
    (settings : Option (List (String × String))) : TaskQueueReq :=
  { method := "POST"
  , path := url ++ "/api/tasks/library/" ++ library ++ "/" ++ task
  , settings := settings.getD [] }

/-- Overwrite-or-add one key in a flat string-valued object, keeping the
first-set key order (JavaScript property assignment). -/
def objSet (m : List (String × String)) (k v : String) :
    List (String × String) :=
  if m.any (fun kv => kv.1 = k) then
    m.map (fun kv => if kv.1 = k then (k, v) else kv)
  else m ++ [(k, v)]

/-- `_.merge(dst, src)` restricted to flat string-valued objects: each
defined source entry overwrites or adds its key in order; a source value
that is `undefined` (`none`) is skipped by lodash merge. -/
def mergeFlat (dst : List (String × String))
    (src : List (String × Option String)) : List (String × String) :=
  src.foldl
    (fun acc kv =>
      match kv.2 with
      | some v => objSet acc kv.1 v
      | none => acc)
    dst

/-- Reading the `_id` property off a JavaScript string primitive yields
`undefined` — strings have no such property. -/
def stringProp_id (_s : String) : Option String := none

/-- The identifiers bound at module scope in src/index.js: the four
`require` bindings and the constructor function.  No `config` binding
exists at any scope enclosing `getLibraryReferences` — the only config
object is the instance property `this.config`. -/
def moduleBindings : List String := ["_", "events", "request", "util", "SRAAPI"]

/-- Resolution of a bare identifier inside `getLibraryReferences`: its
own bindings (parameters), then module scope. -/
def identifierResolves (n : String) (locals : List String) : Bool :=
  locals.contains n || moduleBindings.contains n

/-- The request `getLibraryReferences` would issue. -/
structure GetRefsReq where
  method : String
  path : String
  query : List (String × String)
deriving DecidableEq, Repr

/-- Embedding of `getLibraryReferences` (src/index.js lines 147-153).  The
body's first expression reads the bare identifier `config` (line 148, not
`this.config`); were it bound to an object with the base URL, the request
would be a GET on `configUrl ++ "/api/references"` with query
`_.merge({}, {library: library._id}, query)`.  Since no `config` binding
exists in scope, evaluating the expression raises a ReferenceError, which
escapes the call. -/
def getLibraryReferences (configUrl : String) (library : String)
    (query : List (String × Option String)) : Except String GetRefsReq :=
  if identifierResolves "config" ["library", "query", "callback"] then
    .ok { method := "GET"
        , path := configUrl ++ "/api/references"
        , query := mergeFlat (mergeFlat [] [("library", stringProp_id library)]) query }
  else
    .error "ReferenceError: config is not defined"

/-- C2: the claim that every operation without a callback silently drops
all outcomes fails on `taskWait`: its transport-error branch calls
`callback(err)` directly, with no function guard, so with no callback
supplied the tick raises a TypeError past the operation boundary — while
the `_handleResponse` path used by login/upload/taskQueue does drop the
same outcome silently. -/
theorem taskWait_no_callback_throws (cbP : Bool) (pf : Nat) (e : String)
    (res : Resp) :
    tick false cbP pf (some e) res = TickOut.throwTypeError
    ∧ _handleResponse (some e) res false = HResult.dropped :=
  ⟨rfl, rfl⟩

/-- C4 counterexample: a body carrying an `_id` but no `status` field has
"either field", so per the claim it should proceed to status dispatch —
yet the code reports the empty-response error and stops. -/
theorem taskWait_empty_counterexample :
    tick true true 1000 none ⟨200, ⟨some "t1", none, none⟩⟩
      = TickOut.callbackErr "Empty response" := by decide

/-- C4 (amended): after a successful transport the poll reports the
empty-response error exactly when the guard `_id && status` is falsy,
i.e. when the body lacks the ID field or lacks the status field (either
one absent or empty suffices); only a body with both proceeds to status
dispatch. -/
theorem taskWait_empty_iff (cbP : Bool) (pf : Nat) (res : Resp) :
    (tick true cbP pf none res = TickOut.callbackErr "Empty response")
      ↔ (truthy res.body._id && truthy res.body.status) = false := by
  unfold tick
  cases hc : (truthy res.body._id && truthy res.body.status)
  · simp [callCb]
  · simp only [if_true, Bool.true_eq_false, iff_false]
    split
    · simp
    · simp
    · simp [callCb]
    · split
      · split <;> simp
      · simp
    · simp only [callCb, if_true]
      intro hEq
      rw [TickOut.callbackErr.injEq] at hEq
      have hlen := congrArg String.length hEq
      rw [String.length_append] at hlen
      have h28 : ("Unknown server task status: ").length = 28 := by decide
      have h14 : ("Empty response").length = 14 := by decide
      rw [h28, h14] at hlen
      omega

/-- C4 witness: a body with neither field reports the empty-response
error, by the amended equivalence at a concrete input. -/
theorem taskWait_empty_iff_witness :
    tick true true 1000 none ⟨200, ⟨none, none, none⟩⟩
      = TickOut.callbackErr "Empty response" :=
  (taskWait_empty_iff true 1000 ⟨200, ⟨none, none, none⟩⟩).mpr (by decide)

/-- C5: on an unrecognized body status the poll does terminate, but the
error message interpolates `res.status` — the HTTP status code of the
response — not the body's status string: a 200 response whose body status
is "bogus" reports "Unknown server task status: 200", not "bogus". -/
theorem taskWait_unknown_status_http_code :
    tick true true 1000 none ⟨200, ⟨some "t1", some "bogus", none⟩⟩
      = TickOut.callbackErr "Unknown server task status: 200"
    ∧ isTerminalTick
        (tick true true 1000 none ⟨200, ⟨some "t1", some "bogus", none⟩⟩)
      = true := by
  refine ⟨by decide, by decide⟩

/-- C6 counterexample: inside `taskWait`, a non-200 poll response with a
well-formed `pending` body yields no server-error outcome and no callback
at all — the handler never inspects the status code and just schedules the
next tick, refuting "for every operation ... non-200 yields ServerError". -/
theorem taskWait_non200_counterexample :
    tick true true 1000 none ⟨500, ⟨some "t1", some "pending", none⟩⟩
      = TickOut.scheduleNext 1000 none := by decide

/-- C6 (amended): for the operations routed through `_handleResponse`
with a callback supplied, the outcome is never dropped, a transport error
is forwarded verbatim, every non-200 response with no transport error
yields the server-error result carrying that status code, and a 200
response yields the success result with the parsed body — so exactly one
of the three outcomes is produced per call and they are mutually
exclusive.  `taskWait`'s non-completed poll branches bypass this check. -/
theorem handleResponse_classification (err : Option String) (res : Resp) :
    _handleResponse err res true ≠ HResult.dropped
    ∧ (∀ e, err = some e → _handleResponse err res true = HResult.errored e)
    ∧ (err = none → res.statusCode ≠ 200 →
        _handleResponse err res true
          = HResult.serverError ("Status code: " ++ toString res.statusCode))
    ∧ (err = none → res.statusCode = 200 →
        _handleResponse err res true = HResult.success res.body) := by
  refine ⟨handleResponse_true_ne_dropped err res, ?_, ?_, ?_⟩
  · intro e he
    subst he
    rfl
  · intro he hcode
    subst he
    unfold _handleResponse
    simp [hcode]
  · intro he hcode
    subst he
    unfold _handleResponse
    simp [hcode]

/-- C6 witness: a 500 response with no transport error produces exactly
the server-error outcome carrying code 500. -/
theorem handleResponse_classification_witness :
    _handleResponse none ⟨500, ⟨none, none, none⟩⟩ true
      = HResult.serverError "Status code: 500" :=
  (handleResponse_classification none ⟨500, ⟨none, none, none⟩⟩).2.2.1 rfl
    (by decide)

set_option maxRecDepth 100000 in
/-- C7 counterexample: the claim's percent formula is the exact rational
ceiling `ceil(current/max*100)`, but src/index.js line 121 computes in
IEEE-754 doubles: at progress `{7, 100}` JavaScript evaluates
`7/100*100` to `7.000000000000001`, so the poll's progress event carries
percent 8 where the exact ceiling is 7 — the claim is false at this
input. -/
theorem taskWait_percent_counterexample :
    tick true true 1000 none
        ⟨200, ⟨some "t1", some "processing", some ⟨7, 100⟩⟩⟩
      = TickOut.scheduleNext 1000
          (some ⟨⟨some "t1", some "processing", some ⟨7, 100⟩⟩, natToF64 8⟩)
    ∧ natToF64 8 ≠ natToF64 7
    ∧ (⌈((7 : ℚ) / 100) * 100⌉ : ℤ) = 7 := by
  refine ⟨by decide, by decide, by norm_num⟩

set_option maxRecDepth 100000 in
/-- C7 (amended): a `processing` poll with progress `{current := c,
max := m}` and a progress callback supplied schedules the next tick after
the poll interval and fires the progress callback with the body augmented
with percent = `Math.ceil(c/m*100)` evaluated in IEEE-754 binary64
arithmetic (`percentOf`), which can exceed the exact rational ceiling by
one; progress `{3, 4}` gives percent 75 exactly; a `pending` poll
schedules the next tick with no progress event. -/
theorem taskWait_processing_progress (pf code code2 : Nat)
    (oid oid2 : Option String) (c m : Nat) (oprog2 : Option Progress)
    (h2 : truthy oid = true) (h5 : truthy oid2 = true) :
    tick true true pf none ⟨code, ⟨oid, some "processing", some ⟨c, m⟩⟩⟩
      = TickOut.scheduleNext pf
          (some ⟨⟨oid, some "processing", some ⟨c, m⟩⟩, percentOf ⟨c, m⟩⟩)
    ∧ percentOf ⟨3, 4⟩ = natToF64 75
    ∧ tick true true pf none ⟨code2, ⟨oid2, some "pending", oprog2⟩⟩
      = TickOut.scheduleNext pf none := by
  refine ⟨?_, ?_, ?_⟩
  · simp [tick, h2, show truthy (some "processing") = true from rfl]
  · decide
  · simp [tick, h5, show truthy (some "pending") = true from rfl]

/-- C7 witness: the processing case at `_id = "t1"`, progress `{3, 4}`
fires the progress event with percent 75, and the pending case schedules
silently. -/
theorem taskWait_processing_progress_witness :
    tick true true 1000 none ⟨200, ⟨some "t1", some "processing", some ⟨3, 4⟩⟩⟩
      = TickOut.scheduleNext 1000
          (some ⟨⟨some "t1", some "processing", some ⟨3, 4⟩⟩, natToF64 75⟩)
    ∧ tick true true 1000 none ⟨200, ⟨some "t1", some "pending", none⟩⟩
      = TickOut.scheduleNext 1000 none := by
  have h := taskWait_processing_progress 1000 200 200 (some "t1") (some "t1")
    3 4 none (by decide) (by decide)
  refine ⟨?_, h.2.2⟩
  rw [h.1, h.2.1]

/-- C8: `taskQueue` POSTs to the path parameterized by library ID and task
alias with body `{settings: ...}`, the settings defaulting to the empty
mapping when absent and passed through unchanged when supplied. -/
theorem taskQueue_request (url library task : String)
    (settings : Option (List (String × String))) :
    (taskQueue url library task none).settings = []
    ∧ (∀ s, (taskQueue url library task (some s)).settings = s)
    ∧ (taskQueue url library task settings).method = "POST"
    ∧ (taskQueue url library task settings).path
        = url ++ "/api/tasks/library/" ++ library ++ "/" ++ task :=
  ⟨rfl, fun _ => rfl, rfl, rfl⟩

/-- C9: the `processing` branch reads the progress fields unguarded: with
a progress callback supplied and a body `{_id, status: "processing"}`
carrying no `progress` object, the tick raises a TypeError instead of
reporting through any callback; without a progress callback the same body
just schedules the next tick. -/
theorem taskWait_processing_unguarded (pf code : Nat) (oid : Option String)
    (h : truthy oid = true) :
    tick true true pf none ⟨code, ⟨oid, some "processing", none⟩⟩
      = TickOut.throwTypeError
    ∧ tick true false pf none ⟨code, ⟨oid, some "processing", none⟩⟩
      = TickOut.scheduleNext pf none := by
  refine ⟨?_, ?_⟩
  · simp [tick, h, show truthy (some "processing") = true from rfl]
  · simp [tick, h, show truthy (some "processing") = true from rfl]

/-- C9 witness: the unguarded access at the concrete body
`{_id: "t1", status: "processing"}`. -/
theorem taskWait_processing_unguarded_witness :
    tick true true 1000 none ⟨200, ⟨some "t1", some "processing", none⟩⟩
      = TickOut.throwTypeError :=
  (taskWait_processing_unguarded 1000 200 (some "t1") (by decide)).1

/-- C10: a poll whose body status is "error" hands the completion callback
exactly the fixed string "Task error" — no status code, body, or further
detail — and the executed step terminates the loop with nothing further
scheduled. -/
theorem taskWait_error_branch (cbP : Bool) (pf code : Nat)
    (oid : Option String) (oprog : Option Progress)
    (h : truthy oid = true) :
    tick true cbP pf none ⟨code, ⟨oid, some "error", oprog⟩⟩
      = TickOut.callbackErr "Task error"
    ∧ (stepPoll true cbP pf initPoll
        ((none : Option String), ⟨code, ⟨oid, some "error", oprog⟩⟩)).terminated
      = true
    ∧ (stepPoll true cbP pf initPoll
        ((none : Option String), ⟨code, ⟨oid, some "error", oprog⟩⟩)).pendingTimers
      = 0 := by
  have ht : tick true cbP pf none ⟨code, ⟨oid, some "error", oprog⟩⟩
      = TickOut.callbackErr "Task error" := by
    simp [tick, callCb, h, show truthy (some "error") = true from rfl]
  refine ⟨ht, ?_, ?_⟩
  · unfold stepPoll
    rw [ht]
    rfl
  · unfold stepPoll
    rw [ht]
    rfl

/-- C10 witness: the error branch at the concrete body
`{_id: "t1", status: "error"}`. -/
theorem taskWait_error_branch_witness :
    tick true true 1000 none ⟨200, ⟨some "t1", some "error", none⟩⟩
      = TickOut.callbackErr "Task error" :=
  (taskWait_error_branch true 1000 200 (some "t1") none (by decide)).1

/-- C3: `getLibraryReferences` cannot issue the specified GET at all: its
first expression reads the unbound identifier `config`, so every call —
in particular `getLibraryReferences(libID, {sort: "title"})` — raises a
ReferenceError; moreover even the query expression it would build reads
`library._id` off the string parameter (yielding `undefined`, which
lodash merge drops, so no `library` key at all) and merges `query` last,
so a conflicting `extraQuery` key would win over the library parameter. -/
theorem getLibraryReferences_referenceError :
    getLibraryReferences "http://glitch" "lib1" [("sort", some "title")]
      = Except.error "ReferenceError: config is not defined"
    ∧ mergeFlat (mergeFlat [] [("library", stringProp_id "lib1")])
        [("sort", some "title")] = [("sort", "title")]
    ∧ mergeFlat (mergeFlat [] [("library", some "explicit")])
        [("library", some "fromQuery")] = [("library", "fromQuery")] := by
  refine ⟨rfl, by decide, by decide⟩

end SraApi
